import Mathlib

/-!
Verification development for the UCP commerce demo server.

Shallow embedding of the checkout-session state machine (`server/checkout.py`),
the product catalog lookups it consumes (`server/products.py`), the UCP
function dispatcher (`execute_ucp_function` in `server/ai_agent.py`) and the
bounded orchestration loop (`process_chat_message` in `server/ai_agent.py`).

Modelling conventions:
- Monetary amounts and quantities are natural numbers (prices are integer
  minor units, non-negative throughout the catalog and the data model).
  Python's `int(subtotal * percent / 100)` on non-negative operands is the
  floor, i.e. `Nat` division.
- Python exceptions (`ValueError`) become `Except String`, carrying the
  exact message the source formats.
- The global in-memory session dict `_checkout_sessions` becomes an explicit
  association-list store threaded through every operation.
- Generated UUIDs (session ids, line-item ids) are nondeterministic inputs;
  they are passed in as explicit string parameters.  No embedded operation
  and no claim inspects line-item ids, so `create_checkout_session` fills
  them with a fixed placeholder.
- `datetime.now()` timestamps and the constant `payment` field are never
  read by any embedded operation and are omitted from the session record.
-/

namespace UCP

/-- ASCII upper-casing, the effect of Python `str.upper()` on the
alphanumeric discount codes this program handles. -/
def strUpper (s : String) : String := String.mk (s.data.map Char.toUpper)

/-- ASCII lower-casing, the effect of Python `str.lower()` on the catalog
strings this program handles. -/
def strLower (s : String) : String := String.mk (s.data.map Char.toLower)

/-- `p` is a prefix of `s` (character lists); Python substring search helper. -/
def charsSub (p : List Char) : List Char → Bool
  | [] => p.isEmpty
  | c :: t => p.isPrefixOf (c :: t) || charsSub p t

/-- Python `pat in s` on strings: `pat` occurs as a contiguous substring. -/
def strContainsSub (s pat : String) : Bool := charsSub pat.data s.data

/-- Catalog product (`server/products.py`, class `Product`); fields never
read by the embedded operations (rating, stock, comments, …) are omitted. -/
structure Product where
  id : String
  title : String
  price : Nat
  description : String := ""
  category : Option String := none
deriving Repr, DecidableEq

/-- `get_product` (`products.py`): first catalog entry with matching id. -/
def get_product (catalog : List Product) (product_id : String) : Option Product :=
  catalog.find? (fun p => p.id == product_id)

/-- `search_products` (`products.py`): optional case-insensitive substring
filter on title/description, then optional exact category filter.  Python
`if query:` treats the empty string as absent. -/
def search_products (catalog : List Product) (query category : Option String) :
    List Product :=
  let results := catalog
  let results :=
    match query with
    | some q =>
      if q ≠ "" then
        results.filter (fun p =>
          strContainsSub (strLower p.title) (strLower q) ||
          strContainsSub (strLower p.description) (strLower q))
      else results
    | none => results
  match category with
  | some c => if c ≠ "" then results.filter (fun p => p.category == some c) else results
  | none => results

/-- Item snapshot stored inside a line item (`ItemResponse` fields read by
the checkout code). -/
structure ItemSnap where
  id : String
  title : String
  price : Nat
deriving Repr, DecidableEq

/-- One entry of a totals list (`TotalResponse`). -/
structure TotalResponse where
  type : String
  amount : Nat
deriving Repr, DecidableEq

/-- Discount allocation (`Allocation`). -/
structure Allocation where
  path : String
  amount : Nat
deriving Repr, DecidableEq

/-- Applied discount (`AppliedDiscount`). -/
structure AppliedDiscount where
  code : String
  title : String
  amount : Nat
  automatic : Bool
  allocations : List Allocation
deriving Repr, DecidableEq

/-- Line item (`LineItemResponse`). -/
structure LineItemResponse where
  id : String
  item : ItemSnap
  quantity : Nat
  totals : List TotalResponse
deriving Repr, DecidableEq

/-- Buyer (`Buyer`). -/
structure Buyer where
  full_name : String
  email : String
deriving Repr, DecidableEq

/-- The session's `discounts` dict.  The Python code distinguishes a missing
`"codes"` / `"applied"` key from a present one, so both are `Option`s;
a fresh session has the empty dict (both keys absent). -/
structure Discounts where
  codes : Option (List String) := none
  applied : Option (List AppliedDiscount) := none
deriving Repr, DecidableEq

/-- `CheckoutSession` (`checkout.py`): id, currency, line items, buyer,
status string, discounts dict. -/
structure CheckoutSession where
  id : String
  currency : String := "USD"
  line_items : List LineItemResponse := []
  buyer : Option Buyer := none
  status : String := "draft"
  discounts : Discounts := {}
deriving Repr, DecidableEq

/-- One discount-table entry: percentage or flat amount. -/
inductive DiscountRule where
  | percent (pct : Nat)
  | flat (amount : Nat)
deriving Repr, DecidableEq

/-- Title plus rule, the value type of the compiled-in table. -/
structure DiscountInfo where
  title : String
  rule : DiscountRule
deriving Repr, DecidableEq

/-- The fixed compiled-in discount table `DISCOUNTS` in
`CheckoutSession.apply_discount`. -/
def DISCOUNTS (code : String) : Option DiscountInfo :=
  if code = "10OFF" then some ⟨"10% Off", .percent 10⟩
  else if code = "SAVE20" then some ⟨"20% Off", .percent 20⟩
  else if code = "FREESHIP" then some ⟨"Free Shipping", .flat 500⟩
  else none

/-- `item.totals[0].amount`: the stored subtotal entry of a line item.
Every line item the source constructs carries `[subtotal, total]`, so the
index is in range there; the `[]` case is unreachable on constructed data. -/
def firstTotalAmount (li : LineItemResponse) : Nat :=
  match li.totals with
  | [] => 0
  | t :: _ => t.amount

/-- `sum(item.totals[0].amount for item in self.line_items)`, the subtotal
both `apply_discount` and `calculate_totals` compute. -/
def CheckoutSession.storedSubtotal (s : CheckoutSession) : Nat :=
  (s.line_items.map firstTotalAmount).sum

/-- `CheckoutSession.add_line_item`: resolve the product (ValueError if
absent), build the line item with totals `[price*qty, price*qty]`, append. -/
def CheckoutSession.add_line_item (s : CheckoutSession) (catalog : List Product)
    (line_item_id : String) (product_id : String) (quantity : Nat) :
    Except String CheckoutSession :=
  match get_product catalog product_id with
  | none => .error ("Product " ++ product_id ++ " not found")
  | some product =>
    let subtotal := product.price * quantity
    let item : ItemSnap := ⟨product.id, product.title, product.price⟩
    let li : LineItemResponse :=
      ⟨line_item_id, item, quantity, [⟨"subtotal", subtotal⟩, ⟨"total", subtotal⟩]⟩
    .ok { s with line_items := s.line_items ++ [li] }

/-- `CheckoutSession.apply_discount`: table lookup (ValueError if absent),
discount amount from the current subtotal, accumulate the code in
`discounts["codes"]` if new, replace `discounts["applied"]` with the
singleton list holding this discount. -/
def CheckoutSession.apply_discount (s : CheckoutSession) (discount_code : String) :
    Except String CheckoutSession :=
  match DISCOUNTS discount_code with
  | none => .error ("Invalid discount code: " ++ discount_code)
  | some info =>
    let subtotal := s.storedSubtotal
    let discount_amount :=
      match info.rule with
      | .percent p => subtotal * p / 100
      | .flat a => a
    let codes := s.discounts.codes.getD []
    let codes := if discount_code ∈ codes then codes else codes ++ [discount_code]
    let applied : AppliedDiscount :=
      ⟨discount_code, info.title, discount_amount, false, [⟨"subtotal", discount_amount⟩]⟩
    .ok { s with discounts := { codes := some codes, applied := some [applied] } }

/-- `CheckoutSession.calculate_totals`: `[subtotal, …one entry per applied
discount…, total]` with `total = max(0, subtotal - discount_total)`.
All stored applied discounts are `AppliedDiscount` values, so the
dict-compatibility branch of the source is dead in this embedding. -/
def CheckoutSession.calculate_totals (s : CheckoutSession) : List TotalResponse :=
  let subtotal := s.storedSubtotal
  let totals : List TotalResponse := [⟨"subtotal", subtotal⟩]
  let totals := totals ++
    (match s.discounts.applied with
     | none => []
     | some ds => ds.map (fun d => (⟨"discount", d.amount⟩ : TotalResponse)))
  let discount_total := ((totals.filter (fun t => t.type == "discount")).map (·.amount)).sum
  let final_total := (max 0 ((subtotal : Int) - (discount_total : Int))).toNat
  totals ++ [⟨"total", final_total⟩]

/-- `CheckoutSession.set_buyer`. -/
def CheckoutSession.set_buyer (s : CheckoutSession) (full_name email : String) :
    CheckoutSession :=
  { s with buyer := some ⟨full_name, email⟩ }

/-- The in-memory session store `_checkout_sessions`, as an association
list (Python dict keys are unique; `storePut` keeps that invariant). -/
abbrev Store := List (String × CheckoutSession)

/-- Dict lookup `_checkout_sessions.get(session_id)`. -/
def storeGet (store : Store) (sid : String) : Option CheckoutSession :=
  (store.find? (fun kv => kv.1 == sid)).map (·.2)

/-- Dict assignment `_checkout_sessions[session_id] = session` (replace the
binding if present, else append). -/
def storePut (store : Store) (sid : String) (s : CheckoutSession) : Store :=
  if store.any (fun kv => kv.1 == sid) then
    store.map (fun kv => if kv.1 == sid then (sid, s) else kv)
  else store ++ [(sid, s)]

/-- A requested line item, the shape `{"item": {"id": …}, "quantity": …}`
consumed by create/update (only the item id and the quantity are read). -/
structure ReqLineItem where
  id : String
  quantity : Nat := 1
deriving Repr, DecidableEq

/-- `create_checkout_session`: build a fresh session from the requested
line items (ValueError if any product is unknown), set the buyer when
given, set status `ready_for_complete`, store it under the fresh id. -/
def create_checkout_session (catalog : List Product) (store : Store)
    (session_id : String) (line_items : List ReqLineItem) (currency : String)
    (buyer : Option Buyer) : Except String (Store × CheckoutSession) :=
  let init : CheckoutSession := { id := session_id, currency := currency }
  match line_items.foldlM
      (fun s item => s.add_line_item catalog "" item.id item.quantity) init with
  | .error e => .error e
  | .ok s =>
    let s := match buyer with
      | some b => s.set_buyer b.full_name b.email
      | none => s
    let s := { s with status := "ready_for_complete" }
    .ok (storePut store session_id s, s)

/-- `update_checkout_session`: NotFound if the id is unknown; replace the
line items when a non-empty list is given (Python `if line_items:` skips
both `None` and `[]`); apply each given discount code, silently skipping
invalid ones; replace the buyer when given.  The `discounts` argument is
the `"codes"` list of the request dict (the only key the source reads);
`none` covers both an absent dict and a dict without a `"codes"` key.
On a line-item ValueError the source leaves a partially rebuilt session in
the store; that error-path store state is not modelled (no embedded caller
observes it: the dispatcher only reports the error message). -/
def update_checkout_session (catalog : List Product) (store : Store)
    (session_id : String) (line_items : Option (List ReqLineItem))
    (discount_codes : Option (List String)) (buyer : Option Buyer) :
    Except String (Store × CheckoutSession) :=
  match storeGet store session_id with
  | none => .error ("Checkout session " ++ session_id ++ " not found")
  | some session =>
    let rebuilt : Except String CheckoutSession :=
      match line_items with
      | some items =>
        if items.isEmpty then .ok session
        else
          ({ session with line_items := [] } : CheckoutSession) |>
            items.foldlM (fun s item => s.add_line_item catalog "" item.id item.quantity)
      | none => .ok session
    match rebuilt with
    | .error e => .error e
    | .ok session =>
      let session :=
        match discount_codes with
        | some codes =>
          codes.foldl (fun s code =>
            match s.apply_discount code with
            | .ok s' => s'
            | .error _ => s) session
        | none => session
      let session :=
        match buyer with
        | some b => session.set_buyer b.full_name b.email
        | none => session
      .ok (storePut store session_id session, session)

/-- `complete_checkout_session`: NotFound if the id is unknown; otherwise
set status `completed` unconditionally and store the result. -/
def complete_checkout_session (store : Store) (session_id : String) :
    Except String (Store × CheckoutSession) :=
  match storeGet store session_id with
  | none => .error ("Checkout session " ++ session_id ++ " not found")
  | some session =>
    let session := { session with status := "completed" }
    .ok (storePut store session_id session, session)

/-- One cart entry, the dict `{"id", "title", "price", "quantity"}` the
dispatcher builds in its `add_to_cart` branch. -/
structure CartItem where
  id : String
  title : String
  price : Nat
  quantity : Nat
deriving Repr, DecidableEq

/-- The parsed `arguments` dict of a tool call: every key any dispatcher
branch reads, each optional (Python `arguments.get(...)`). -/
structure Args where
  query : Option String := none
  category : Option String := none
  product_id : Option String := none
  quantity : Option Nat := none
  code : Option String := none
  buyer_name : Option String := none
  buyer_email : Option String := none
deriving Repr, DecidableEq

/-- Python `str(x)` on an `Optional[str]` (used in error messages). -/
def optStr : Option String → String
  | none => "None"
  | some s => s

/-- The `"data"` payload of a dispatcher result, one shape per branch. -/
inductive FnData where
  | searchData (products : List Product) (count : Nat)
  | productData (p : Product)
  | addData (product : String) (quantity : Nat) (message : String)
  | viewData (items : List CartItem) (subtotal : Nat) (item_count : Nat)
      (total_items : Nat)
  | discountData (code : String) (discount_applied : Bool) (message : String)
  | createData (session_id : String) (status : String) (message : String)
  | completeData (status : String) (message : String)
deriving Repr, DecidableEq

/-- The uniform dispatcher result dict
`{"success", "data", "error", "cart", "checkout_session"}`.  The source
threads the *serialized* checkout session; the only field any embedded
caller reads from it is `["id"]`, so the reference is modelled as the
session id. -/
structure FnResult where
  success : Bool
  data : Option FnData
  error : Option String
  cart : List CartItem
  checkout_session : Option String
deriving Repr, DecidableEq

/-- The cart merge of the `add_to_cart` branch: the first entry with the
requested product id gets its quantity incremented; otherwise a new entry
is appended at the end. -/
def addToCartMerge (pid title : String) (price qty : Nat) :
    List CartItem → List CartItem
  | [] => [⟨pid, title, price, qty⟩]
  | c :: rest =>
    if c.id = pid then { c with quantity := c.quantity + qty } :: rest
    else c :: addToCartMerge pid title price qty rest

/-- `execute_ucp_function` (`ai_agent.py`): string-keyed dispatch over the
seven UCP operations, returning the uniform result dict plus the updated
session store.  `fresh_id` is the UUID a create path would generate.
Exceptions raised by the checkout layer are caught into `result["error"]`
(the source's blanket `except Exception`). -/
def execute_ucp_function (catalog : List Product) (store : Store)
    (fresh_id : String) (function_name : String) (arguments : Args)
    (cart : List CartItem) (checkout_session : Option String) :
    FnResult × Store :=
  let base : FnResult :=
    { success := false, data := none, error := none, cart := cart,
      checkout_session := checkout_session }
  if function_name = "search_products" then
    let products := search_products catalog arguments.query arguments.category
    ({ base with
        data := some (.searchData products products.length),
        success := true }, store)
  else if function_name = "get_product_details" then
    match arguments.product_id.bind (fun pid => get_product catalog pid) with
    | some p => ({ base with data := some (.productData p), success := true }, store)
    | none =>
      ({ base with
         error := some ("Product " ++ optStr arguments.product_id ++ " not found") },
       store)
  else if function_name = "add_to_cart" then
    let quantity := arguments.quantity.getD 1
    match arguments.product_id with
    | none => ({ base with error := some "Product None not found" }, store)
    | some pid =>
      match get_product catalog pid with
      | none => ({ base with error := some ("Product " ++ pid ++ " not found") }, store)
      | some product =>
        let cart' := addToCartMerge pid product.title product.price quantity cart
        ({ base with
            cart := cart',
            success := true,
            data := some (.addData product.title quantity
              ("Added " ++ product.title ++ " to cart")) }, store)
  else if function_name = "view_cart" then
    let subtotal := (cart.map (fun i => i.price * i.quantity)).sum
    let total_items := (cart.map (·.quantity)).sum
    ({ base with
        success := true,
        data := some (.viewData cart subtotal cart.length total_items) }, store)
  else if function_name = "apply_discount" then
    let code := strUpper (arguments.code.getD "")
    if cart.isEmpty then
      ({ base with error := some "Cart is empty. Add items before applying discount." },
       store)
    else
      let line_items := cart.map
        (fun item => ({ id := item.id, quantity := item.quantity } : ReqLineItem))
      let buyer : Buyer := ⟨"Customer", "customer@example.com"⟩
      let attempt : Except String (Store × CheckoutSession) :=
        match checkout_session with
        | some sid =>
          update_checkout_session catalog store sid (some line_items)
            (some [code]) (some buyer)
        | none =>
          match create_checkout_session catalog store fresh_id line_items
              "USD" (some buyer) with
          | .error e => .error e
          | .ok (store', session) =>
            match session.apply_discount code with
            | .ok session' => .ok (storePut store' session.id session', session')
            | .error _ => .ok (store', session)
      match attempt with
      | .error e => ({ base with error := some e }, store)
      | .ok (store', session) =>
        ({ base with
            checkout_session := some session.id,
            success := true,
            data := some (.discountData code true
              ("Discount code " ++ code ++ " applied successfully")) }, store')
  else if function_name = "create_checkout" then
    if cart.isEmpty then
      ({ base with error := some "Cart is empty. Add items before checkout." }, store)
    else
      let buyer_name := arguments.buyer_name.getD "Customer"
      let buyer_email := arguments.buyer_email.getD "customer@example.com"
      let line_items := cart.map
        (fun item => ({ id := item.id, quantity := item.quantity } : ReqLineItem))
      match create_checkout_session catalog store fresh_id line_items "USD"
          (some ⟨buyer_name, buyer_email⟩) with
      | .error e => ({ base with error := some e }, store)
      | .ok (store', session) =>
        ({ base with
            checkout_session := some session.id,
            success := true,
            data := some (.createData session.id session.status
              "Checkout session created") }, store')
  else if function_name = "complete_checkout" then
    match checkout_session with
    | none =>
      ({ base with error := some "No checkout session. Please create one first." },
       store)
    | some sid =>
      match complete_checkout_session store sid with
      | .error e => ({ base with error := some e }, store)
      | .ok (store', _session) =>
        ({ base with
            cart := [],
            checkout_session := none,
            success := true,
            data := some (.completeData "completed"
              "Purchase completed successfully!") }, store')
  else
    ({ base with error := some ("Unknown function: " ++ function_name) }, store)

/-- One tool-call request extracted from a model reply (`tool_calls` entry):
call id, function name and the parsed arguments.  JSON-argument parsing
(with its `{}` fallback) happens before this point in the embedding. -/
structure ToolCall where
  call_id : Option String := none
  name : String
  arguments : Args
deriving Repr, DecidableEq

/-- One round's outcome of `litellm.completion`: either the call raises
(message and exception type name), or it returns an assistant message with
optional text content and a (possibly empty) list of tool calls. -/
inductive ModelReply where
  | failure (err : String) (err_type : String)
  | message (content : Option String) (tool_calls : List ToolCall)
deriving Repr, DecidableEq

/-- One entry of `function_calls_made`. -/
structure FnCallRecord where
  function : String
  arguments : Args
  result : FnResult
deriving Repr, DecidableEq

/-- The loop's mutable locals: `current_cart`, `current_checkout`, the
session store, `function_calls_made`, the last `assistant_message` seen
(`none` while undefined; `some content` once a round succeeded), a counter
feeding fresh session ids, and the number of model invocations made
(implicit in the source's control flow, made explicit for verification). -/
structure LoopState where
  cart : List CartItem
  checkout : Option String
  store : Store
  function_calls : List FnCallRecord
  last_assistant : Option (Option String) := none
  fresh_count : Nat := 0
  model_calls : Nat := 0
deriving Repr, DecidableEq

/-- The result dict of `process_chat_message`, plus the threaded store and
the model-call count. -/
structure ChatResult where
  response : String
  cart : List CartItem
  checkout_session : Option String
  function_calls : List FnCallRecord
  store : Store
  model_calls : Nat
deriving Repr, DecidableEq

/-- The per-round tool-call execution: run each requested call
sequentially against the accumulated (cart, checkout, store), recording
each result.  `current_cart` and `current_checkout` are refreshed from the
result after every call (both keys are always present in the result). -/
def execToolCalls (catalog : List Product) (fresh : Nat → String) :
    List ToolCall → LoopState → LoopState
  | [], st => st
  | tc :: rest, st =>
    let step := execute_ucp_function catalog st.store (fresh st.fresh_count)
      tc.name tc.arguments st.cart st.checkout
    let res := step.1
    let st' : LoopState :=
      { st with
          cart := res.cart,
          checkout := res.checkout_session,
          store := step.2,
          fresh_count := st.fresh_count + 1,
          function_calls := st.function_calls ++ [⟨tc.name, tc.arguments, res⟩] }
    execToolCalls catalog fresh rest st'

/-- The final-response selection after the loop: fallback text when no
assistant message was ever produced, a shorter fallback when the last
assistant message has no (or empty/falsy) text content. -/
def finalResponse (last_assistant : Option (Option String)) : String :=
  match last_assistant with
  | none => "I\x27m here to help you shop! How can I assist you today?"
  | some content =>
    match content with
    | some s => if s = "" then "I\x27m here to help you shop!" else s
    | none => "I\x27m here to help you shop!"

/-- Package the accumulated loop state as the returned result dict. -/
def finalize (st : LoopState) : ChatResult :=
  { response := finalResponse st.last_assistant,
    cart := st.cart,
    checkout_session := st.checkout,
    function_calls := st.function_calls,
    store := st.store,
    model_calls := st.model_calls }

/-- The error message returned when the model call fails on the very first
round (the source's f-string over the exception, the configured model name
and the exception type name). -/
def errorResponse (litellm_model err err_type : String) : String :=
  "I encountered an error: " ++ err ++
  ". Please check:\n1. Your API key is set correctly in .env file\n2. The model \x27" ++
  litellm_model ++
  "\x27 is valid for your provider\n3. You have sufficient API credits\n\nError type: " ++
  err_type

/-- The `while iteration < max_iterations` loop of `process_chat_message`,
with `max_iterations = 5`.  `fuel` is the number of remaining permitted
rounds and `iteration` the Python counter before its increment; `replies`
is the model-call oracle, indexed by the (1-based) round number.  Each
round makes exactly one model call.  A failure on round 1 returns the
error result immediately; a failure on a later round breaks out of the
loop, keeping the accumulated state.  A reply without tool calls is the
final answer; a reply with tool calls executes them and continues. -/
def chatLoop (catalog : List Product) (litellm_model : String)
    (fresh : Nat → String) (replies : Nat → ModelReply) :
    Nat → Nat → LoopState → ChatResult
  | 0, _, st => finalize st
  | fuel + 1, iteration, st =>
    let iter := iteration + 1
    let st := { st with model_calls := st.model_calls + 1 }
    match replies iter with
    | .failure err err_type =>
      if iter = 1 then
        { response := errorResponse litellm_model err err_type,
          cart := st.cart,
          checkout_session := st.checkout,
          function_calls := st.function_calls,
          store := st.store,
          model_calls := st.model_calls }
      else finalize st
    | .message content tool_calls =>
      let st := { st with last_assistant := some content }
      if tool_calls.isEmpty then finalize st
      else chatLoop catalog litellm_model fresh replies fuel iter
        (execToolCalls catalog fresh tool_calls st)

/-- `process_chat_message` (`ai_agent.py`): the configuration guards, then
the bounded loop starting from the given cart (`cart.copy()`), checkout
reference and store.  The message-list construction, behavior tracker and
prompt templating only feed the external model, which the embedding
abstracts as the `replies` oracle (telemetry never alters control flow).
The two configuration-guard responses are long installation-help texts in
the source, abbreviated here to their leading sentence; no claim inspects
them. -/
def process_chat_message (catalog : List Product) (litellm_model : String)
    (litellm_available api_key_configured : Bool) (fresh : Nat → String)
    (replies : Nat → ModelReply) (store : Store) (cart : List CartItem)
    (checkout_session : Option String) : ChatResult :=
  if !litellm_available then
    { response := "LLM service is not available.",
      cart := cart, checkout_session := checkout_session,
      function_calls := [], store := store, model_calls := 0 }
  else if !api_key_configured then
    { response := "LLM service is not configured.",
      cart := cart, checkout_session := checkout_session,
      function_calls := [], store := store, model_calls := 0 }
  else
    chatLoop catalog litellm_model fresh replies 5 0
      { cart := cart, checkout := checkout_session, store := store,
        function_calls := [] }

/-- The subtotal as the spec words it: `Σ(lineItem.price × quantity)`.
Stated from the spec to compare against the code's stored-totals sum. -/
def spec_subtotal (s : CheckoutSession) : Nat :=
  (s.line_items.map (fun li => li.item.price * li.quantity)).sum

/-- Cart uniqueness by product id (§3: "unique by product id"). -/
def cartUniqueIds (cart : List CartItem) : Prop :=
  cart.Pairwise (fun a b => a.id ≠ b.id)

/-- A one-product catalog used for concrete evaluations. -/
def demoCatalog : List Product :=
  [{ id := "p1", title := "Demo Widget", price := 1000 }]

/-- Projection used to compare discount outcomes: the amounts stored in
`discounts["applied"]` after a successful `apply_discount`. -/
def appliedAmounts (r : Except String CheckoutSession) : Except String (List Nat) :=
  r.map (fun s => (s.discounts.applied.getD []).map (·.amount))

/-- A concrete session with one recorded discount, for evaluations. -/
def demoDiscountedSession : CheckoutSession :=
  { id := "s1",
    discounts :=
      { codes := some ["10OFF"],
        applied := some [⟨"10OFF", "10% Off", 0, false, [⟨"subtotal", 0⟩]⟩] } }

/-- A concrete one-session store holding `demoDiscountedSession`. -/
def demoStore : Store := [("s1", demoDiscountedSession)]

lemma sum_firstTotal_eq (l : List LineItemResponse)
    (h : ∀ li ∈ l, firstTotalAmount li = li.item.price * li.quantity) :
    (l.map firstTotalAmount).sum = (l.map (fun li => li.item.price * li.quantity)).sum := by
  induction l with
  | nil => rfl
  | cons li rest ih =>
    simp only [List.map_cons, List.sum_cons]
    rw [h li (by simp), ih (fun x hx => h x (by simp [hx]))]

lemma storedSubtotal_eq_spec (s : CheckoutSession)
    (h : ∀ li ∈ s.line_items, firstTotalAmount li = li.item.price * li.quantity) :
    s.storedSubtotal = spec_subtotal s :=
  sum_firstTotal_eq s.line_items h

lemma filter_discount_map (ds : List AppliedDiscount) :
    (ds.map (fun d => (⟨"discount", d.amount⟩ : TotalResponse))).filter
      (fun t => t.type == "discount") =
      ds.map (fun d => (⟨"discount", d.amount⟩ : TotalResponse)) := by
  induction ds with
  | nil => rfl
  | cons d rest ih =>
    simp only [List.map_cons, List.filter_cons]
    rw [show ((⟨"discount", d.amount⟩ : TotalResponse).type == "discount") = true from rfl]
    simp only [if_true, ih]

lemma filter_discount_entries (sub : Nat) (ds : List AppliedDiscount) :
    ((⟨"subtotal", sub⟩ ::
        ds.map (fun d => (⟨"discount", d.amount⟩ : TotalResponse))).filter
      (fun t => t.type == "discount")) =
      ds.map (fun d => (⟨"discount", d.amount⟩ : TotalResponse)) := by
  rw [List.filter_cons]
  rw [show ((⟨"subtotal", sub⟩ : TotalResponse).type == "discount") = false from rfl]
  simp only [Bool.false_eq_true, if_false]
  exact filter_discount_map ds

/-- C1: `apply_discount` with a code outside the fixed table
{10OFF, SAVE20, FREESHIP} fails with the invalid-code error; `10OFF` and
`SAVE20` store `floor(subtotal*10/100)` resp. `floor(subtotal*20/100)`;
`FREESHIP` stores the flat 500.  On a session with one line item of price
1000 and quantity 2 (subtotal 2000), `10OFF` stores 200 and `FREESHIP` 500. -/
theorem C1_discount_table :
    (∀ (s : CheckoutSession) (code : String), DISCOUNTS code = none →
        s.apply_discount code = .error ("Invalid discount code: " ++ code)) ∧
    (∀ s : CheckoutSession,
        appliedAmounts (s.apply_discount "10OFF") = .ok [s.storedSubtotal * 10 / 100] ∧
        appliedAmounts (s.apply_discount "SAVE20") = .ok [s.storedSubtotal * 20 / 100] ∧
        appliedAmounts (s.apply_discount "FREESHIP") = .ok [500]) ∧
    (appliedAmounts
        ((({ id := "sess-1" } : CheckoutSession).add_line_item demoCatalog "li-1" "p1" 2).bind
          (fun s => s.apply_discount "10OFF")) = .ok [200] ∧
     appliedAmounts
        ((({ id := "sess-1" } : CheckoutSession).add_line_item demoCatalog "li-1" "p1" 2).bind
          (fun s => s.apply_discount "FREESHIP")) = .ok [500]) := by
  refine ⟨?_, ?_, rfl, rfl⟩
  · intro s code h
    simp [CheckoutSession.apply_discount, h]
  · intro s
    refine ⟨?_, ?_, ?_⟩ <;>
      simp [appliedAmounts, CheckoutSession.apply_discount, DISCOUNTS, Except.map]

/-- Witness for C1 at a concrete unknown code and session. -/
theorem C1_discount_table_witness :
    DISCOUNTS "BOGUS" = none ∧
    ({ id := "w1" } : CheckoutSession).apply_discount "BOGUS" =
      .error ("Invalid discount code: " ++ "BOGUS") :=
  ⟨by decide, C1_discount_table.1 { id := "w1" } "BOGUS" (by decide)⟩

/-- C2: `calculate_totals` returns the subtotal entry
`Σ(lineItem.price × quantity)` first, then one entry per applied discount,
then the final total `max(0, subtotal − Σ applied amounts)`, in order.
The hypothesis is the data-model invariant (§3) that stored line-item
totals are never stale. -/
theorem C2_calculate_totals_shape :
    ∀ s : CheckoutSession,
      (∀ li ∈ s.line_items, firstTotalAmount li = li.item.price * li.quantity) →
      s.calculate_totals =
        ⟨"subtotal", spec_subtotal s⟩ ::
          ((s.discounts.applied.getD []).map
              (fun d => (⟨"discount", d.amount⟩ : TotalResponse)) ++
            [⟨"total", (max 0 ((spec_subtotal s : Int) -
                (((s.discounts.applied.getD []).map (·.amount)).sum : Int))).toNat⟩]) := by
  intro s h
  have hsub := storedSubtotal_eq_spec s h
  unfold CheckoutSession.calculate_totals
  cases happ : s.discounts.applied with
  | none => simp [happ, hsub]
  | some ds =>
    simp only [happ, hsub, Option.getD_some]
    rw [show ([(⟨"subtotal", spec_subtotal s⟩ : TotalResponse)] ++
        ds.map (fun d => (⟨"discount", d.amount⟩ : TotalResponse))) =
        (⟨"subtotal", spec_subtotal s⟩ ::
          ds.map (fun d => (⟨"discount", d.amount⟩ : TotalResponse))) from rfl]
    rw [filter_discount_entries, List.map_map]
    rfl

/-- Witness for C2 at a concrete session with one line item and one
applied discount. -/
theorem C2_calculate_totals_shape_witness :
    (∀ li ∈ ([⟨"li-1", ⟨"p1", "Demo Widget", 1000⟩, 2,
          [⟨"subtotal", 2000⟩, ⟨"total", 2000⟩]⟩] : List LineItemResponse),
        firstTotalAmount li = li.item.price * li.quantity) ∧
    ({ id := "w2",
       line_items := [⟨"li-1", ⟨"p1", "Demo Widget", 1000⟩, 2,
          [⟨"subtotal", 2000⟩, ⟨"total", 2000⟩]⟩],
       discounts :=
        { codes := some ["10OFF"],
          applied := some [⟨"10OFF", "10% Off", 200, false, [⟨"subtotal", 200⟩]⟩] } } :
        CheckoutSession).calculate_totals =
      ⟨"subtotal", 2000⟩ :: ([⟨"discount", 200⟩] ++ [⟨"total", 1800⟩]) := by
  constructor
  · decide
  · have := C2_calculate_totals_shape
      { id := "w2",
        line_items := [⟨"li-1", ⟨"p1", "Demo Widget", 1000⟩, 2,
          [⟨"subtotal", 2000⟩, ⟨"total", 2000⟩]⟩],
        discounts :=
          { codes := some ["10OFF"],
            applied := some [⟨"10OFF", "10% Off", 200, false, [⟨"subtotal", 200⟩]⟩] } }
      (by decide)
    simpa [spec_subtotal] using this

/-- C3: a successful `apply_discount` replaces the applied list with the
singleton holding the new discount while the code set accumulates every
distinct code; applying two different valid codes in sequence leaves one
applied entry (the last code) but both codes recorded. -/
theorem C3_last_discount_wins :
    (∀ (s : CheckoutSession) (code : String) (s' : CheckoutSession),
        s.apply_discount code = .ok s' →
        (∃ d, s'.discounts.applied = some [d] ∧ d.code = code) ∧
        s'.discounts.codes = some
          (if code ∈ s.discounts.codes.getD [] then s.discounts.codes.getD []
           else s.discounts.codes.getD [] ++ [code])) ∧
    (∀ (s : CheckoutSession) (c1 c2 : String) (s1 s2 : CheckoutSession),
        c1 ≠ c2 → s.apply_discount c1 = .ok s1 → s1.apply_discount c2 = .ok s2 →
        (∃ d, s2.discounts.applied = some [d] ∧ d.code = c2) ∧
        (s2.discounts.applied.getD []).length = 1 ∧
        c1 ∈ s2.discounts.codes.getD [] ∧ c2 ∈ s2.discounts.codes.getD []) := by
  have step : ∀ (s : CheckoutSession) (code : String) (s' : CheckoutSession),
      s.apply_discount code = .ok s' →
      (∃ d, s'.discounts.applied = some [d] ∧ d.code = code) ∧
      s'.discounts.codes = some
        (if code ∈ s.discounts.codes.getD [] then s.discounts.codes.getD []
         else s.discounts.codes.getD [] ++ [code]) := by
    intro s code s' h
    unfold CheckoutSession.apply_discount at h
    cases hd : DISCOUNTS code with
    | none => rw [hd] at h; exact absurd h (by simp)
    | some info =>
      rw [hd] at h
      simp only [Except.ok.injEq] at h
      subst h
      exact ⟨⟨_, rfl, rfl⟩, rfl⟩
  refine ⟨step, ?_⟩
  intro s c1 c2 s1 s2 hne h1 h2
  obtain ⟨⟨d1, hd1, hd1c⟩, hc1⟩ := step s c1 s1 h1
  obtain ⟨⟨d2, hd2, hd2c⟩, hc2⟩ := step s1 c2 s2 h2
  have hmem1 : c1 ∈ s1.discounts.codes.getD [] := by
    rw [hc1]
    split <;> simp_all
  refine ⟨⟨d2, hd2, hd2c⟩, by simp [hd2], ?_, ?_⟩
  · rw [hc2]
    split <;> simp [hmem1]
  · rw [hc2]
    split <;> simp_all

/-- Witness for C3 applying `10OFF` then `SAVE20` to a fresh session. -/
theorem C3_last_discount_wins_witness :
    ("10OFF" : String) ≠ "SAVE20" ∧
    ({ id := "w3" } : CheckoutSession).apply_discount "10OFF" =
      .ok { id := "w3",
            discounts :=
              { codes := some ["10OFF"],
                applied := some [⟨"10OFF", "10% Off", 0, false, [⟨"subtotal", 0⟩]⟩] } } ∧
    ({ id := "w3",
       discounts :=
        { codes := some ["10OFF"],
          applied := some [⟨"10OFF", "10% Off", 0, false, [⟨"subtotal", 0⟩]⟩] } } :
        CheckoutSession).apply_discount "SAVE20" =
      .ok { id := "w3",
            discounts :=
              { codes := some ["10OFF", "SAVE20"],
                applied := some [⟨"SAVE20", "20% Off", 0, false, [⟨"subtotal", 0⟩]⟩] } } ∧
    ((∃ d, (some [(⟨"SAVE20", "20% Off", 0, false, [⟨"subtotal", 0⟩]⟩ : AppliedDiscount)] :
          Option (List AppliedDiscount)) = some [d] ∧ d.code = "SAVE20") ∧
      ((some [(⟨"SAVE20", "20% Off", 0, false, [⟨"subtotal", 0⟩]⟩ : AppliedDiscount)] :
          Option (List AppliedDiscount)).getD []).length = 1 ∧
      "10OFF" ∈ (["10OFF", "SAVE20"] : List String) ∧
      "SAVE20" ∈ (["10OFF", "SAVE20"] : List String)) :=
  ⟨by decide, rfl, rfl,
    C3_last_discount_wins.2 { id := "w3" } "10OFF" "SAVE20" _ _ (by decide) rfl rfl⟩

lemma find?_mapped_put (store : Store) (sid : String) (x : CheckoutSession)
    (hany : store.any (fun kv => kv.1 == sid) = true) :
    (store.map (fun kv => if kv.1 == sid then (sid, x) else kv)).find?
      (fun kv => kv.1 == sid) = some (sid, x) := by
  induction store with
  | nil => simp at hany
  | cons kv rest ih =>
    simp only [List.map_cons]
    by_cases h : kv.1 = sid
    · have hb : (kv.1 == sid) = true := by simpa using h
      rw [if_pos hb, List.find?_cons_of_pos _ (by simp)]
    · have hb : (kv.1 == sid) = false := by simpa using h
      rw [if_neg (by simp [hb]), List.find?_cons_of_neg _ (by simp [hb])]
      have hrest : rest.any (fun kv => kv.1 == sid) = true := by
        rcases List.any_eq_true.mp hany with ⟨y, hy, hpy⟩
        rcases List.mem_cons.mp hy with hhd | htl
        · exact absurd hpy (by simp [hhd, hb])
        · exact List.any_eq_true.mpr ⟨y, htl, hpy⟩
      exact ih hrest

lemma storeGet_storePut_self (store : Store) (sid : String) (x : CheckoutSession) :
    storeGet (storePut store sid x) sid = some x := by
  unfold storePut storeGet
  by_cases hany : store.any (fun kv => kv.1 == sid) = true
  · rw [if_pos hany, find?_mapped_put store sid x hany]
    rfl
  · rw [if_neg hany, List.find?_append]
    have hnone : store.find? (fun kv => kv.1 == sid) = none := by
      rw [List.find?_eq_none]
      intro kv hkv hpkv
      exact hany (List.any_eq_true.mpr ⟨kv, hkv, hpkv⟩)
    rw [hnone]
    have hfind : List.find? (fun kv => kv.1 == sid) [(sid, x)] = some (sid, x) :=
      List.find?_cons_of_pos _ (by simp)
    rw [hfind]
    rfl

/-- C6: `apply_discount` with a code absent from the table raises the
invalid-code error before any mutation, and at the `update_checkout_session`
level (where that error is caught) the stored session — in particular its
recorded code set and applied list — is returned exactly as it was. -/
theorem C6_invalid_code_atomic :
    ∀ (catalog : List Product) (store : Store) (sid : String)
      (s : CheckoutSession) (code : String),
      DISCOUNTS code = none → storeGet store sid = some s →
      s.apply_discount code = .error ("Invalid discount code: " ++ code) ∧
      update_checkout_session catalog store sid none (some [code]) none =
        .ok (storePut store sid s, s) ∧
      storeGet (storePut store sid s) sid = some s := by
  intro catalog store sid s code hcode hget
  refine ⟨?_, ?_, storeGet_storePut_self store sid s⟩
  · simp [CheckoutSession.apply_discount, hcode]
  · simp [update_checkout_session, hget, CheckoutSession.apply_discount, hcode]

/-- Witness for C6: a concrete store holding one session with a recorded
discount, updated with the unknown code `BOGUS`. -/
theorem C6_invalid_code_atomic_witness :
    DISCOUNTS "BOGUS" = none ∧
    storeGet demoStore "s1" = some demoDiscountedSession ∧
    update_checkout_session [] demoStore "s1" none (some ["BOGUS"]) none =
      .ok (storePut demoStore "s1" demoDiscountedSession, demoDiscountedSession) :=
  ⟨by decide, rfl,
    (C6_invalid_code_atomic [] demoStore "s1" demoDiscountedSession "BOGUS"
      (by decide) rfl).2.1⟩

/-- C7: `complete_checkout_session` fails NotFound exactly on unknown ids;
on a known id it sets status `completed` unconditionally — with no
hypothesis on the prior status, so an already-completed session is
re-completed without error. -/
theorem C7_complete_unconditional :
    ∀ (store : Store) (sid : String),
      (storeGet store sid = none →
        complete_checkout_session store sid =
          .error ("Checkout session " ++ sid ++ " not found")) ∧
      (∀ s, storeGet store sid = some s →
        complete_checkout_session store sid =
          .ok (storePut store sid { s with status := "completed" },
            { s with status := "completed" }) ∧
        storeGet (storePut store sid { s with status := "completed" }) sid =
          some { s with status := "completed" }) := by
  intro store sid
  constructor
  · intro hnone
    simp [complete_checkout_session, hnone]
  · intro s hget
    refine ⟨?_, storeGet_storePut_self store sid _⟩
    simp [complete_checkout_session, hget]

/-- Witness for C7: the unknown id `"nope"` fails NotFound on the empty
store; on a store holding an already-completed session, completion is
accepted again (repeated completion not rejected). -/
theorem C7_complete_unconditional_witness :
    storeGet ([] : Store) "nope" = none ∧
    complete_checkout_session ([] : Store) "nope" =
      .error ("Checkout session " ++ "nope" ++ " not found") ∧
    storeGet [("s1", { id := "s1", status := "completed" })] "s1" =
      some { id := "s1", status := "completed" } ∧
    complete_checkout_session [("s1", { id := "s1", status := "completed" })] "s1" =
      .ok (storePut [("s1", { id := "s1", status := "completed" })] "s1"
          { id := "s1", status := "completed" },
        { id := "s1", status := "completed" }) :=
  ⟨rfl, (C7_complete_unconditional [] "nope").1 rfl, rfl,
    ((C7_complete_unconditional [("s1", { id := "s1", status := "completed" })] "s1").2
      { id := "s1", status := "completed" } rfl).1⟩

lemma addToCartMerge_of_not_mem (pid title : String) (price qty : Nat) :
    ∀ cart : List CartItem, (∀ c ∈ cart, c.id ≠ pid) →
      addToCartMerge pid title price qty cart = cart ++ [⟨pid, title, price, qty⟩] := by
  intro cart
  induction cart with
  | nil => intro _; rfl
  | cons c rest ih =>
    intro h
    unfold addToCartMerge
    rw [if_neg (h c (by simp)), ih (fun x hx => h x (by simp [hx]))]
    rfl

lemma addToCartMerge_append_last (pid title : String) (price qty : Nat)
    (t0 : String) (p0 q0 : Nat) :
    ∀ xs : List CartItem, (∀ c ∈ xs, c.id ≠ pid) →
      addToCartMerge pid title price qty (xs ++ [⟨pid, t0, p0, q0⟩]) =
        xs ++ [⟨pid, t0, p0, q0 + qty⟩] := by
  intro xs
  induction xs with
  | nil =>
    intro _
    simp only [List.nil_append]
    unfold addToCartMerge
    rw [if_pos rfl]
  | cons c rest ih =>
    intro h
    simp only [List.cons_append]
    unfold addToCartMerge
    rw [if_neg (h c (by simp)), ih (fun x hx => h x (by simp [hx]))]

lemma exec_add_to_cart (catalog : List Product) (store : Store) (fid : String)
    (pid : String) (product : Product) (q : Nat) (cart : List CartItem)
    (chk : Option String) (hp : get_product catalog pid = some product) :
    execute_ucp_function catalog store fid "add_to_cart"
      { product_id := some pid, quantity := some q } cart chk =
      ({ success := true,
         data := some (.addData product.title q
          ("Added " ++ product.title ++ " to cart")),
         error := none,
         cart := addToCartMerge pid product.title product.price q cart,
         checkout_session := chk }, store) := by
  simp [execute_ucp_function, hp]

/-- C4: dispatching `add_to_cart` for a catalog product twice (quantities
q1 then q2), starting from a cart without that product, appends a single
entry and then merges into it: the final cart holds exactly one entry for
the product, with quantity q1+q2, and uniqueness by product id is kept. -/
theorem C4_add_to_cart_merges :
    ∀ (catalog : List Product) (store1 store2 : Store) (fid1 fid2 : String)
      (pid : String) (product : Product) (q1 q2 : Nat)
      (cart : List CartItem) (chk1 chk2 : Option String),
      get_product catalog pid = some product →
      (∀ c ∈ cart, c.id ≠ pid) →
      (execute_ucp_function catalog store1 fid1 "add_to_cart"
          { product_id := some pid, quantity := some q1 } cart chk1).1.success = true ∧
      (execute_ucp_function catalog store1 fid1 "add_to_cart"
          { product_id := some pid, quantity := some q1 } cart chk1).1.cart =
        cart ++ [⟨pid, product.title, product.price, q1⟩] ∧
      (execute_ucp_function catalog store2 fid2 "add_to_cart"
          { product_id := some pid, quantity := some q2 }
          (cart ++ [⟨pid, product.title, product.price, q1⟩]) chk2).1.cart =
        cart ++ [⟨pid, product.title, product.price, q1 + q2⟩] ∧
      (cart ++ [(⟨pid, product.title, product.price, q1 + q2⟩ : CartItem)]).countP
        (fun c => c.id == pid) = 1 ∧
      (cartUniqueIds cart →
        cartUniqueIds (cart ++ [⟨pid, product.title, product.price, q1 + q2⟩])) := by
  intro catalog store1 store2 fid1 fid2 pid product q1 q2 cart chk1 chk2 hp hmem
  refine ⟨?_, ?_, ?_, ?_, ?_⟩
  · rw [exec_add_to_cart catalog store1 fid1 pid product q1 cart chk1 hp]
  · rw [exec_add_to_cart catalog store1 fid1 pid product q1 cart chk1 hp]
    exact addToCartMerge_of_not_mem pid product.title product.price q1 cart hmem
  · rw [exec_add_to_cart catalog store2 fid2 pid product q2 _ chk2 hp]
    exact addToCartMerge_append_last pid product.title product.price q2
      product.title product.price q1 cart hmem
  · rw [List.countP_append]
    have h0 : cart.countP (fun c => c.id == pid) = 0 := by
      rw [List.countP_eq_zero]
      intro c hc
      simpa using hmem c hc
    rw [h0]
    simp [List.countP_cons]
  · intro hu
    rw [cartUniqueIds, List.pairwise_append]
    refine ⟨hu, List.pairwise_singleton _ _, ?_⟩
    intro a ha b hb
    rw [List.mem_singleton] at hb
    subst hb
    exact hmem a ha
/-- Witness for C4: adding `p1` (quantity 2 then 3) to an empty cart. -/
theorem C4_add_to_cart_merges_witness :
    get_product demoCatalog "p1" = some { id := "p1", title := "Demo Widget", price := 1000 } ∧
    (∀ c : CartItem, c ∈ ([] : List CartItem) → c.id ≠ "p1") ∧
    ((execute_ucp_function demoCatalog [] "f1" "add_to_cart"
        { product_id := some "p1", quantity := some 2 } [] none).1.cart =
      [] ++ [⟨"p1", "Demo Widget", 1000, 2⟩] ∧
     (execute_ucp_function demoCatalog [] "f2" "add_to_cart"
        { product_id := some "p1", quantity := some 3 }
        ([] ++ [⟨"p1", "Demo Widget", 1000, 2⟩]) none).1.cart =
      [] ++ [⟨"p1", "Demo Widget", 1000, 5⟩] ∧
     (([] : List CartItem) ++ [(⟨"p1", "Demo Widget", 1000, 5⟩ : CartItem)]).countP
        (fun c => c.id == "p1") = 1) := by
  refine ⟨by decide, by simp, ?_, ?_, ?_⟩
  · exact (C4_add_to_cart_merges demoCatalog [] [] "f1" "f2" "p1"
      { id := "p1", title := "Demo Widget", price := 1000 } 2 3 [] none none
      (by decide) (by simp)).2.1
  · exact (C4_add_to_cart_merges demoCatalog [] [] "f1" "f2" "p1"
      { id := "p1", title := "Demo Widget", price := 1000 } 2 3 [] none none
      (by decide) (by simp)).2.2.1
  · exact (C4_add_to_cart_merges demoCatalog [] [] "f1" "f2" "p1"
      { id := "p1", title := "Demo Widget", price := 1000 } 2 3 [] none none
      (by decide) (by simp)).2.2.2.1

/-- C5: dispatching `complete_checkout` without a held session reference
fails with the no-session error and changes nothing (same cart, same
reference, same store); with a held reference to a stored session it
marks that session completed and returns an empty cart and a cleared
(`none`) reference. -/
theorem C5_complete_checkout :
    ∀ (catalog : List Product) (store : Store) (fid : String) (args : Args)
      (cart : List CartItem),
      (execute_ucp_function catalog store fid "complete_checkout" args cart none =
        ({ success := false, data := none,
           error := some "No checkout session. Please create one first.",
           cart := cart, checkout_session := none }, store)) ∧
      (∀ (sid : String) (s : CheckoutSession), storeGet store sid = some s →
        execute_ucp_function catalog store fid "complete_checkout" args cart (some sid) =
          ({ success := true,
             data := some (.completeData "completed" "Purchase completed successfully!"),
             error := none, cart := [], checkout_session := none },
           storePut store sid { s with status := "completed" }) ∧
        storeGet (storePut store sid { s with status := "completed" }) sid =
          some { s with status := "completed" }) := by
  intro catalog store fid args cart
  constructor
  · simp [execute_ucp_function]
  · intro sid s hget
    refine ⟨?_, storeGet_storePut_self store sid _⟩
    simp [execute_ucp_function, complete_checkout_session, hget]

/-- Witness for C5: completing against a one-session store. -/
theorem C5_complete_checkout_witness :
    storeGet [("s1", { id := "s1", status := "ready_for_complete" })] "s1" =
      some { id := "s1", status := "ready_for_complete" } ∧
    execute_ucp_function [] [("s1", { id := "s1", status := "ready_for_complete" })]
        "f1" "complete_checkout" {} [⟨"p1", "Demo Widget", 1000, 1⟩] (some "s1") =
      ({ success := true,
         data := some (.completeData "completed" "Purchase completed successfully!"),
         error := none, cart := [], checkout_session := none },
       storePut [("s1", { id := "s1", status := "ready_for_complete" })] "s1"
         { id := "s1", status := "completed" }) :=
  ⟨rfl,
    ((C5_complete_checkout [] [("s1", { id := "s1", status := "ready_for_complete" })]
      "f1" {} [⟨"p1", "Demo Widget", 1000, 1⟩]).2 "s1"
      { id := "s1", status := "ready_for_complete" } rfl).1⟩

lemma execToolCalls_model_calls (catalog : List Product) (fresh : Nat → String) :
    ∀ (tcs : List ToolCall) (st : LoopState),
      (execToolCalls catalog fresh tcs st).model_calls = st.model_calls := by
  intro tcs
  induction tcs with
  | nil => intro st; rfl
  | cons tc rest ih =>
    intro st
    unfold execToolCalls
    exact ih _

lemma chatLoop_model_calls_le (catalog : List Product) (litellm_model : String)
    (fresh : Nat → String) (replies : Nat → ModelReply) :
    ∀ (fuel iteration : Nat) (st : LoopState),
      (chatLoop catalog litellm_model fresh replies fuel iteration st).model_calls ≤
        st.model_calls + fuel := by
  intro fuel
  induction fuel with
  | zero => intro it st; simp [chatLoop, finalize]
  | succ n ih =>
    intro it st
    rw [chatLoop]
    cases hr : replies (it + 1) with
    | failure err err_type =>
      by_cases h1 : it + 1 = 1
      · simp [hr, h1, finalize]
      · simp [hr, h1, finalize]
    | message content tcs =>
      by_cases htc : tcs.isEmpty
      · simp [hr, htc, finalize]
      · simp only [hr, htc, Bool.false_eq_true, if_false]
        calc (chatLoop catalog litellm_model fresh replies n (it + 1)
                (execToolCalls catalog fresh tcs
                  { st with
                      model_calls := st.model_calls + 1,
                      last_assistant := some content })).model_calls ≤
            (execToolCalls catalog fresh tcs
              { st with
                  model_calls := st.model_calls + 1,
                  last_assistant := some content }).model_calls + n := ih _ _
          _ = st.model_calls + 1 + n := by
              rw [execToolCalls_model_calls]
          _ ≤ st.model_calls + (n + 1) := by omega

/-- C8: for every incoming message (any flags, any oracle of model
replies, any tool-call behavior) the orchestration loop makes at most 5
model calls before returning. -/
theorem C8_model_call_cap :
    ∀ (catalog : List Product) (litellm_model : String)
      (litellm_available api_key_configured : Bool) (fresh : Nat → String)
      (replies : Nat → ModelReply) (store : Store) (cart : List CartItem)
      (checkout_session : Option String),
      (process_chat_message catalog litellm_model litellm_available api_key_configured
        fresh replies store cart checkout_session).model_calls ≤ 5 := by
  intro catalog litellm_model la akc fresh replies store cart chk
  unfold process_chat_message
  split
  · simp
  · split
    · simp
    · have h := chatLoop_model_calls_le catalog litellm_model fresh replies 5 0
        { cart := cart, checkout := chk, store := store, function_calls := [] }
      simpa using h

/-- C9: a model-call failure on the very first round returns immediately
with the error text as the response and the input cart/checkout/store
unchanged (no tool calls recorded); a failure on any later round breaks
out of the loop and returns the state accumulated so far (`finalize` of
the current loop state) instead of propagating the failure. -/
theorem C9_model_failure_policy :
    (∀ (catalog : List Product) (litellm_model : String) (fresh : Nat → String)
        (replies : Nat → ModelReply) (store : Store) (cart : List CartItem)
        (checkout_session : Option String) (err err_type : String),
        replies 1 = .failure err err_type →
        process_chat_message catalog litellm_model true true fresh replies store cart
            checkout_session =
          { response := errorResponse litellm_model err err_type,
            cart := cart, checkout_session := checkout_session,
            function_calls := [], store := store, model_calls := 1 }) ∧
    (∀ (catalog : List Product) (litellm_model : String) (fresh : Nat → String)
        (replies : Nat → ModelReply) (fuel iteration : Nat) (st : LoopState)
        (err err_type : String),
        replies (iteration + 1) = .failure err err_type → iteration ≠ 0 →
        chatLoop catalog litellm_model fresh replies (fuel + 1) iteration st =
          finalize { st with model_calls := st.model_calls + 1 }) := by
  constructor
  · intro catalog litellm_model fresh replies store cart chk err err_type h
    unfold process_chat_message
    simp only [Bool.not_true, Bool.false_eq_true, if_false]
    rw [show (5 : Nat) = 4 + 1 from rfl, chatLoop]
    simp [h]
  · intro catalog litellm_model fresh replies fuel iteration st err err_type h hne
    rw [chatLoop]
    simp [h, hne]

/-- Witness for C9: a reply oracle failing on round 1 for part one, and a
mid-loop state with one prior round for part two. -/
theorem C9_model_failure_policy_witness :
    ((fun _ : Nat => ModelReply.failure "boom" "Exception") 1 =
      ModelReply.failure "boom" "Exception") ∧
    process_chat_message [] "gpt-4o-mini" true true (fun _ => "id")
        (fun _ => ModelReply.failure "boom" "Exception") [] [] none =
      { response := errorResponse "gpt-4o-mini" "boom" "Exception",
        cart := [], checkout_session := none,
        function_calls := [], store := [], model_calls := 1 } ∧
    (1 : Nat) ≠ 0 ∧
    chatLoop [] "gpt-4o-mini" (fun _ => "id")
        (fun _ => ModelReply.failure "boom" "Exception") (3 + 1) 1
        { cart := [⟨"p1", "Demo Widget", 1000, 1⟩], checkout := none, store := [],
          function_calls := [], last_assistant := some (some "hello"),
          fresh_count := 0, model_calls := 1 } =
      finalize
        { cart := [⟨"p1", "Demo Widget", 1000, 1⟩], checkout := none, store := [],
          function_calls := [], last_assistant := some (some "hello"),
          fresh_count := 0, model_calls := 2 } :=
  ⟨rfl,
    C9_model_failure_policy.1 [] "gpt-4o-mini" (fun _ => "id")
      (fun _ => ModelReply.failure "boom" "Exception") [] [] none "boom" "Exception" rfl,
    by decide,
    C9_model_failure_policy.2 [] "gpt-4o-mini" (fun _ => "id")
      (fun _ => ModelReply.failure "boom" "Exception") 3 1
      { cart := [⟨"p1", "Demo Widget", 1000, 1⟩], checkout := none, store := [],
        function_calls := [], last_assistant := some (some "hello"),
        fresh_count := 0, model_calls := 1 } "boom" "Exception" rfl (by decide)⟩

lemma foldlM_add_line_item_ok (catalog : List Product) :
    ∀ (items : List ReqLineItem) (s : CheckoutSession),
      (∀ item ∈ items, (get_product catalog item.id).isSome) →
      ∃ s', items.foldlM
        (fun s item => s.add_line_item catalog "" item.id item.quantity) s = .ok s' := by
  intro items
  induction items with
  | nil => intro s _; exact ⟨s, rfl⟩
  | cons it rest ih =>
    intro s h
    obtain ⟨p, hp⟩ := Option.isSome_iff_exists.mp (h it (by simp))
    have hstep : s.add_line_item catalog "" it.id it.quantity =
        .ok { s with line_items := s.line_items ++
          [⟨"", ⟨p.id, p.title, p.price⟩, it.quantity,
            [⟨"subtotal", p.price * it.quantity⟩, ⟨"total", p.price * it.quantity⟩]⟩] } := by
      simp [CheckoutSession.add_line_item, hp]
    obtain ⟨s', hs'⟩ := ih _ (fun x hx => h x (by simp [hx]))
    refine ⟨s', ?_⟩
    rw [List.foldlM_cons, hstep]
    exact hs'

lemma create_checkout_session_ok (catalog : List Product) (store : Store)
    (sid : String) (items : List ReqLineItem) (currency : String) (buyer : Option Buyer)
    (h : ∀ item ∈ items, (get_product catalog item.id).isSome) :
    ∃ store' session,
      create_checkout_session catalog store sid items currency buyer =
        .ok (store', session) := by
  obtain ⟨s', hs'⟩ := foldlM_add_line_item_ok catalog items
    { id := sid, currency := currency } h
  unfold create_checkout_session
  simp only [hs']
  cases buyer <;> exact ⟨_, _, rfl⟩

lemma update_checkout_session_ok (catalog : List Product) (store : Store)
    (sid : String) (items : List ReqLineItem) (codes : List String) (buyer : Buyer)
    (s : CheckoutSession) (hget : storeGet store sid = some s)
    (hres : ∀ item ∈ items, (get_product catalog item.id).isSome) :
    ∃ store' s',
      update_checkout_session catalog store sid (some items) (some codes) (some buyer) =
        .ok (store', s') := by
  unfold update_checkout_session
  rw [hget]
  by_cases he : items.isEmpty
  · simp only [he, if_true]
    exact ⟨_, _, rfl⟩
  · obtain ⟨s', hs'⟩ := foldlM_add_line_item_ok catalog items
      { s with line_items := [] } hres
    simp only [he, Bool.false_eq_true, if_false]
    rw [hs']
    exact ⟨_, _, rfl⟩

/-- C10: with a non-empty cart of catalog products, the dispatcher's
`apply_discount` branch succeeds for *every* code — including codes not in
the discount table — reporting the applied-successfully message, on both
the lazy-create path (no session held) and the update path (a stored
session held): invalid codes are silently swallowed
(`except ValueError: pass`) and never surface as a dispatcher error. -/
theorem C10_dispatcher_swallows_invalid_codes :
    ∀ (catalog : List Product) (store : Store) (fid : String) (args : Args)
      (cart : List CartItem),
      cart ≠ [] →
      (∀ item ∈ cart, (get_product catalog item.id).isSome) →
      ((execute_ucp_function catalog store fid "apply_discount" args cart none).1.success =
          true ∧
        (execute_ucp_function catalog store fid "apply_discount" args cart none).1.error =
          none ∧
        (execute_ucp_function catalog store fid "apply_discount" args cart none).1.data =
          some (.discountData (strUpper (args.code.getD "")) true
            ("Discount code " ++ strUpper (args.code.getD "") ++
              " applied successfully"))) ∧
      (∀ (sid : String) (s : CheckoutSession), storeGet store sid = some s →
        (execute_ucp_function catalog store fid "apply_discount" args cart
            (some sid)).1.success = true ∧
        (execute_ucp_function catalog store fid "apply_discount" args cart
            (some sid)).1.error = none ∧
        (execute_ucp_function catalog store fid "apply_discount" args cart
            (some sid)).1.data =
          some (.discountData (strUpper (args.code.getD "")) true
            ("Discount code " ++ strUpper (args.code.getD "") ++
              " applied successfully"))) := by
  intro catalog store fid args cart hne hres
  have hItems : ∀ item ∈ cart.map
      (fun item => ({ id := item.id, quantity := item.quantity } : ReqLineItem)),
      (get_product catalog item.id).isSome := by
    intro it hit
    obtain ⟨c, hc, rfl⟩ := List.mem_map.mp hit
    exact hres c hc
  have hEmpty : cart.isEmpty = false := by
    cases cart
    · exact absurd rfl hne
    · rfl
  constructor
  · obtain ⟨store1, session1, hcreate⟩ := create_checkout_session_ok catalog store fid
      (cart.map (fun item => ({ id := item.id, quantity := item.quantity } : ReqLineItem)))
      "USD" (some ⟨"Customer", "customer@example.com"⟩) hItems
    cases happly : session1.apply_discount (strUpper (args.code.getD "")) with
    | ok s2 => simp [execute_ucp_function, hEmpty, hcreate, happly]
    | error e => simp [execute_ucp_function, hEmpty, hcreate, happly]
  · intro sid s hget
    obtain ⟨store', s', hupd⟩ := update_checkout_session_ok catalog store sid
      (cart.map (fun item => ({ id := item.id, quantity := item.quantity } : ReqLineItem)))
      [strUpper (args.code.getD "")] ⟨"Customer", "customer@example.com"⟩ s hget hItems
    simp [execute_ucp_function, hEmpty, hupd]

/-- Witness for C10: the unknown code `BOGUS` on a one-item cart, on both
the lazy-create path (empty store, no reference) and the update path
(`demoStore` with its session held). -/
theorem C10_dispatcher_swallows_invalid_codes_witness :
    ([(⟨"p1", "Demo Widget", 1000, 2⟩ : CartItem)] ≠ []) ∧
    (∀ item ∈ [(⟨"p1", "Demo Widget", 1000, 2⟩ : CartItem)],
      (get_product demoCatalog item.id).isSome) ∧
    storeGet demoStore "s1" = some demoDiscountedSession ∧
    (execute_ucp_function demoCatalog [] "f1" "apply_discount" { code := some "bogus" }
        [⟨"p1", "Demo Widget", 1000, 2⟩] none).1.success = true ∧
    (execute_ucp_function demoCatalog demoStore "f1" "apply_discount"
        { code := some "bogus" } [⟨"p1", "Demo Widget", 1000, 2⟩]
        (some "s1")).1.success = true ∧
    (execute_ucp_function demoCatalog demoStore "f1" "apply_discount"
        { code := some "bogus" } [⟨"p1", "Demo Widget", 1000, 2⟩]
        (some "s1")).1.data =
      some (.discountData "BOGUS" true "Discount code BOGUS applied successfully") := by
  refine ⟨by decide, by decide, rfl, ?_, ?_, ?_⟩
  · exact (C10_dispatcher_swallows_invalid_codes demoCatalog [] "f1"
      { code := some "bogus" } [⟨"p1", "Demo Widget", 1000, 2⟩]
      (by decide) (by decide)).1.1
  · exact ((C10_dispatcher_swallows_invalid_codes demoCatalog demoStore "f1"
      { code := some "bogus" } [⟨"p1", "Demo Widget", 1000, 2⟩]
      (by decide) (by decide)).2 "s1" demoDiscountedSession rfl).1
  · have h := ((C10_dispatcher_swallows_invalid_codes demoCatalog demoStore "f1"
      { code := some "bogus" } [⟨"p1", "Demo Widget", 1000, 2⟩]
      (by decide) (by decide)).2 "s1" demoDiscountedSession rfl).2.2
    simpa [strUpper] using h

end UCP
